/-
Verification of the bot-runtime core of `zulip_bots/lib.py`
(rate limiter, state store, facade, mention extraction, dispatch loop).

Python strings are modelled as `List Char`; Python `None` results as
`Option.none`; machine floats from `time.time()` are modelled as integer
timestamps (only ordering and subtraction matter to the code); a raised
exception is modelled by an explicit error constructor or `Option.none`.
Remote-client calls are modelled by explicit parameters (the success flag
of the reply) and by counting the calls performed.
-/
import Mathlib

/-! ## RateLimit (`lib.py` lines 31-53)

`is_legal` appends the current timestamp, and once the window exceeds
`message_limit` it pops the oldest entry and compares the span of the
trimmed window against `interval_limit`.  The timestamp of the call is
passed explicitly (`time.time()` is an effect); `none` models the
`IndexError` that Python would raise on `message_list[-1]` when the
trimmed list is empty (only possible when `message_limit = 0`). -/

structure RateLimit where
  message_limit : Nat
  interval_limit : Int
  message_list : List Int
deriving Repr, DecidableEq

def RateLimit.is_legal (rl : RateLimit) (now : Int) : Option (Bool × RateLimit) :=
  let l := rl.message_list ++ [now]
  if l.length > rl.message_limit then
    let t := l.drop 1
    match t.getLast?, t.head? with
    | some last, some first =>
        some (decide (last - first ≥ rl.interval_limit), { rl with message_list := t })
    | _, _ => none
  else
    some (true, { rl with message_list := l })

/-- A sequence of `is_legal` calls at the given timestamps, returning the
list of results and the final limiter state (`none` if any call crashed). -/
def runCalls : RateLimit → List Int → Option (List Bool × RateLimit)
  | rl, [] => some ([], rl)
  | rl, t :: ts =>
    (rl.is_legal t).bind
      (fun p => (runCalls p.2 ts).map (fun q => (p.1 :: q.1, q.2)))

example : runCalls { message_limit := 2, interval_limit := 10, message_list := [] } [0, 9, 10] =
    some ([true, true, false],
      { message_limit := 2, interval_limit := 10, message_list := [9, 10] }) := by decide

example : runCalls { message_limit := 2, interval_limit := 10, message_list := [] } [0, 9, 19] =
    some ([true, true, true],
      { message_limit := 2, interval_limit := 10, message_list := [9, 19] }) := by decide

/-! ## StateHandler (`lib.py` lines 55-92)

`state_` is the local key→serialized-text mapping (a Python dict, modelled
as an association list with replace-on-update), `_modified_entries` the
dirty set.  `json.dumps` is an external injective serializer; values are
modelled as the serialized text it produces, so `put` stores the text
directly.  `_save` is parametrised by whether the remote
`update_storage` call reports success; it returns the resulting handler,
whether `StateHandlerError` was raised, and how many `update_storage`
network calls were performed; `none` models the `KeyError` that the dict
comprehension would raise on a dirty key absent from `state_`. -/

structure StateHandler where
  state_ : List (String × String)
  _modified_entries : List String
deriving Repr, DecidableEq

/-- Python dict assignment `d[key] = value` (replace or append). -/
def upsert (l : List (String × String)) (key value : String) : List (String × String) :=
  if l.any (fun p => p.1 = key) then
    l.map (fun p => if p.1 = key then (key, value) else p)
  else
    l ++ [(key, value)]

/-- Python dict lookup `d[key]` (`none` = `KeyError`). -/
def lookupKey (l : List (String × String)) (key : String) : Option String :=
  (l.find? (fun p => p.1 = key)).map (fun p => p.2)

def StateHandler.put (s : StateHandler) (key value : String) : StateHandler :=
  { state_ := upsert s.state_ key value,
    _modified_entries := if key ∈ s._modified_entries then s._modified_entries
                         else s._modified_entries ++ [key] }

def StateHandler.contains (s : StateHandler) (key : String) : Bool :=
  s.state_.any (fun p => p.1 = key)

/-- The dict comprehension `{key: self.state_[key] for key in self._modified_entries}`. -/
def StateHandler.buildUpdate (s : StateHandler) : Option (List (String × String)) :=
  s._modified_entries.mapM (fun k => (lookupKey s.state_ k).map (fun v => (k, v)))

def StateHandler.save (s : StateHandler) (remote_ok : Bool) :
    Option (StateHandler × Bool × Nat) :=
  match s.buildUpdate with
  | none => none
  | some inner =>
    -- state_update = {'state': {...}} : the OUTER dict, which always has
    -- the single key 'state', is what `if state_update:` truth-tests.
    let state_update : List (String × List (String × String)) := [("state", inner)]
    if state_update.isEmpty then
      some (s, false, 0)
    else if remote_ok then
      some ({ s with _modified_entries := [] }, false, 1)
    else
      some (s, true, 1)

example : StateHandler.save { state_ := [], _modified_entries := [] } true =
    some ({ state_ := [], _modified_entries := [] }, false, 1) := by decide

example : StateHandler.save { state_ := [("k", "v")], _modified_entries := ["k"] } false =
    some ({ state_ := [("k", "v")], _modified_entries := ["k"] }, true, 1) := by decide

/-! ## Mention extraction (`lib.py` lines 197-206)

Message text is `List Char`; Python `None` is `Option.none`;
`str.lstrip()` is `dropWhile Char.isWhitespace`. -/

def chars (s : String) : List Char := s.data

def extract_query_without_mention (full_name content : List Char) : Option (List Char) :=
  let mention := chars "@**" ++ full_name ++ chars "**"
  if ¬ mention.isPrefixOf content then
    none
  else
    some ((content.drop mention.length).dropWhile Char.isWhitespace)

example : extract_query_without_mention (chars "Bot") (chars "@**Bot** hello") =
    some (chars "hello") := by decide

example : extract_query_without_mention (chars "Bot") (chars "hi @**Bot**") = none := by decide

example : extract_query_without_mention (chars "Bot") (chars "@**Bot**  ") = some [] := by decide

/-! ## Messages, the facade's send path (`lib.py` lines 116-165)

`display_recipient` is a stream name (string) for stream messages and a
list of user dicts for private messages; only the `email` field of those
dicts is used by the code under scrutiny. -/

structure UserRef where
  email : String
deriving Repr, DecidableEq

inductive DisplayRecipient
  | stream (name : String)
  | users (l : List UserRef)
deriving Repr, DecidableEq

structure Message where
  type : String
  sender_id : Nat
  display_recipient : DisplayRecipient
  subject : String
  content : List Char
deriving Repr, DecidableEq

/-- The identity triple the facade resolves at startup. -/
structure BotIdentity where
  user_id : Nat
  full_name : List Char
  email : String
deriving Repr, DecidableEq

/-- The envelope handed to the remote client's message-send operation;
`to_` models the envelope's `to` field (`to` is reserved in Lean). -/
inductive Envelope
  | pm (to_ : List String) (content : String)
  | stream (to_ : String) (subject : String) (content : String)
deriving Repr, DecidableEq

/-- The facade's `send_message`: consult the rate limiter, then either forward the
envelope to the remote client or terminate (`show_error_and_exit`,
modelled as the inner `none`).  The outer `none` is the limiter's
`IndexError` crash (impossible for the facade's `RateLimit(20, 5)`). -/
def send_message (rl : RateLimit) (now : Int) (message : Envelope) :
    Option (Option Envelope × RateLimit) :=
  match rl.is_legal now with
  | none => none
  | some (true, rl₁) => some (some message, rl₁)
  | some (false, rl₁) => some (none, rl₁)

/-- The facade's `send_reply`: private messages answer the participant list minus the
bot's own email; everything else goes back to the same stream and
subject.  `none` additionally covers the `TypeError` Python would raise
when `display_recipient` has the shape of the other message kind. -/
def send_reply (bot : BotIdentity) (rl : RateLimit) (now : Int)
    (message : Message) (response : String) :
    Option (Option Envelope × RateLimit) :=
  if message.type = "private" then
    match message.display_recipient with
    | .users l =>
        send_message rl now
          (.pm ((l.filter (fun x => bot.email ≠ x.email)).map (fun x => x.email)) response)
    | .stream _ => none
  else
    match message.display_recipient with
    | .stream s => send_message rl now (.stream s message.subject response)
    | .users _ => none

/-! ## The dispatch loop's `handle_message` (`lib.py` lines 208-219, 260-282)

The plugin's `handle_message` is an arbitrary function of the (possibly
mention-stripped) message acting on the state store; the bot's sends are
not modelled here (they do not affect the dispatch outcome).  `storage`
is `some` exactly when the bot declared `uses_storage` (line 120);
otherwise the final `restricted_client.storage._save()` line hits the
raising property of line 130-142.  `remote_ok` is the success flag of
the flush's `update_storage` call. -/

def is_private_message_from_another_user (message_dict : Message) (current_user_id : Nat) : Bool :=
  if message_dict.type = "private" then
    current_user_id ≠ message_dict.sender_id
  else
    false

/-- What the final `restricted_client.storage._save()` line did. -/
inductive FlushOutcome
  | attributeError                               -- `storage` property raised (no capability)
  | keyError                                     -- dict comprehension crashed in `_save`
  | stateSyncError (store : StateHandler)        -- `_save` raised `StateHandlerError`
  | flushed (store : StateHandler) (net_calls : Nat)
deriving Repr, DecidableEq

inductive HandleResult
  | droppedMention                               -- early return: mention not leading
  | finished (invoked : Option Message) (flush : FlushOutcome)
deriving Repr, DecidableEq

def handle_message (bot : BotIdentity) (message : Message) (flags : List String)
    (storage : Option StateHandler) (remote_ok : Bool)
    (plugin : Message → StateHandler → StateHandler) : HandleResult :=
  let is_mentioned := flags.contains "mentioned"
  let is_private_message := is_private_message_from_another_user message bot.user_id
  let stripped : Option Message :=
    if is_mentioned then
      (extract_query_without_mention bot.full_name message.content).map
        (fun c => { message with content := c })
    else
      some message
  match stripped with
  | none => .droppedMention
  | some message =>
    let invoked : Option Message :=
      if is_private_message || is_mentioned then some message else none
    let storage :=
      match invoked with
      | some m => storage.map (fun st => plugin m st)
      | none => storage
    match storage with
    | none => .finished invoked .attributeError
    | some st =>
      match st.save remote_ok with
      | none => .finished invoked .keyError
      | some (st₁, raised, n) =>
          .finished invoked (if raised then .stateSyncError st₁ else .flushed st₁ n)

/-- The message the plugin was invoked with, if it was invoked. -/
def HandleResult.invokedMsg : HandleResult → Option Message
  | .droppedMention => none
  | .finished invoked _ => invoked

/-! ## Scoped `open` (`lib.py` lines 187-195)

The facade's `open` runs `os.path.normpath` on the argument, joins it to
the root directory with `os.path.join`, and string-prefix-tests the
result against the root.  `posixpath.normpath` and the two-argument
`posixpath.join` are translated verbatim below over `List Char`.
Opening the file itself is external; the model returns the path handed
to the built-in `open` as the handle. -/

/-- Python `path.split('/')` (single-character separator semantics). -/
def splitSlash : List Char → List (List Char)
  | [] => [[]]
  | c :: cs =>
      let r := splitSlash cs
      if c = '/' then [] :: r
      else
        match r with
        | [] => [[c]]
        | h :: t => (c :: h) :: t

example : splitSlash (chars "a//b") = [chars "a", [], chars "b"] := by decide
example : splitSlash (chars "/a") = [[], chars "a"] := by decide

/-- Python `posixpath.normpath`, translated clause by clause. -/
def normpath (path : List Char) : List Char :=
  if path = [] then chars "." else
  let initial_slashes : Nat :=
    if (chars "/").isPrefixOf path then
      if (chars "//").isPrefixOf path ∧ ¬ (chars "///").isPrefixOf path then 2 else 1
    else 0
  let comps := splitSlash path
  let new_comps := comps.foldl
    (fun acc comp =>
      if comp = [] ∨ comp = chars "." then acc
      else if comp ≠ chars ".." ∨ (initial_slashes = 0 ∧ acc = []) ∨
              (acc ≠ [] ∧ acc.getLast? = some (chars "..")) then
        acc ++ [comp]
      else if acc ≠ [] then acc.dropLast
      else acc)
    []
  let joined := List.replicate initial_slashes '/' ++ List.intercalate (chars "/") new_comps
  if joined = [] then chars "." else joined

example : normpath (chars "../../etc/passwd") = chars "../../etc/passwd" := by decide
example : normpath (chars "a/./b//../c") = chars "a/c" := by decide
example : normpath (chars "/home/bot/project/../../etc/passwd") = chars "/home/etc/passwd" := by
  decide

/-- Two-argument `posixpath.join`. -/
def pyJoin (a b : List Char) : List Char :=
  if (chars "/").isPrefixOf b then b
  else if a = [] ∨ a.getLast? = some '/' then a ++ b
  else a ++ chars "/" ++ b

/-- The facade's `open` (`lib.py` 187-195): `.error` carries the
`abs_filepath` named by the `PermissionError`, `.ok` the path opened. -/
def ExternalBotHandler.open (root_dir filepath : List Char) : Except (List Char) (List Char) :=
  let filepath := normpath filepath
  let abs_filepath := pyJoin root_dir filepath
  if root_dir.isPrefixOf abs_filepath then
    .ok abs_filepath
  else
    .error abs_filepath

example : ExternalBotHandler.open (chars "/home/bot/project") (chars "data.txt") =
    .ok (chars "/home/bot/project/data.txt") := by rfl

example : ExternalBotHandler.open (chars "/home/bot/project") (chars "../../etc/passwd") =
    .ok (chars "/home/bot/project/../../etc/passwd") := by rfl

example : ExternalBotHandler.open (chars "/home/bot/project") (chars "/etc/passwd") =
    .error (chars "/etc/passwd") := by rfl

/-! ## Theorems -/

/-- C1: the spec says a relative path whose resolved form escapes the root
(`"../../etc/passwd"`) fails with a permission error.  The code is wrong:
`os.path.join` does not normalize the `..` segments away, so the joined
path is a string extension of the root and the `startswith` guard passes.
The call returns a handle on `/home/bot/project/../../etc/passwd`, whose
normalized form `/home/etc/passwd` lies outside the root — contradicting
the code's own error message that bots may only access files in their
local directory.  The in-root path `"data.txt"` does succeed as claimed. -/
theorem open_traversal_escapes_root :
    ExternalBotHandler.open (chars "/home/bot/project") (chars "../../etc/passwd") =
      .ok (chars "/home/bot/project/../../etc/passwd") ∧
    normpath (chars "/home/bot/project/../../etc/passwd") = chars "/home/etc/passwd" ∧
    (chars "/home/bot/project").isPrefixOf (chars "/home/etc/passwd") = false ∧
    ExternalBotHandler.open (chars "/home/bot/project") (chars "data.txt") =
      .ok (chars "/home/bot/project/data.txt") :=
  ⟨rfl, by decide, by decide, rfl⟩

/-- C2: the spec says a flush with an empty dirty set performs zero network
calls.  The code is wrong: `_save` truth-tests the OUTER dict
`{'state': {...}}`, which always contains the key `'state'` and is hence
always truthy, so `update_storage` is called even when the dirty set is
empty — both on a fresh store and on the second of two back-to-back
flushes after a single `put`. -/
theorem flush_empty_dirty_performs_network_call :
    StateHandler.save { state_ := [], _modified_entries := [] } true =
      some ({ state_ := [], _modified_entries := [] }, false, 1) ∧
    StateHandler.put { state_ := [], _modified_entries := [] } "k" "v" =
      { state_ := [("k", "v")], _modified_entries := ["k"] } ∧
    StateHandler.save { state_ := [("k", "v")], _modified_entries := ["k"] } true =
      some ({ state_ := [("k", "v")], _modified_entries := [] }, false, 1) ∧
    StateHandler.save { state_ := [("k", "v")], _modified_entries := [] } true =
      some ({ state_ := [("k", "v")], _modified_entries := [] }, false, 1) := by
  refine ⟨by decide, by decide, by decide, by decide⟩

/-- C6: if the remote update does not report success, `_save` raises
`StateHandlerError` (propagated: nothing catches it), performs exactly the
one rejected network call, and leaves both the local mapping and the
dirty set exactly as they were, so a retry remains possible. -/
theorem flush_failure_preserves_state (s : StateHandler) (u : List (String × String))
    (hu : s.buildUpdate = some u) (_hne : s._modified_entries ≠ []) :
    s.save false = some (s, true, 1) := by
  unfold StateHandler.save
  rw [hu]
  rfl

/-- Witness for C6 on a concrete dirty store. -/
theorem flush_failure_preserves_state_witness :
    StateHandler.save { state_ := [("k", "v")], _modified_entries := ["k"] } false =
      some ({ state_ := [("k", "v")], _modified_entries := ["k"] }, true, 1) :=
  flush_failure_preserves_state _ _ rfl (by decide)

/-- Token-prefixed content: the extractor drops the token and trims
leading whitespace from the remainder. -/
theorem extract_query_token_hit (full_name rest : List Char) :
    extract_query_without_mention full_name
        ((chars "@**" ++ full_name ++ chars "**") ++ rest) =
      some (rest.dropWhile Char.isWhitespace) := by
  unfold extract_query_without_mention
  rw [if_neg, List.drop_left]
  simp [List.isPrefixOf_iff_prefix]

/-- Content not starting with the token: the extractor returns `None`. -/
theorem extract_query_token_miss (full_name content : List Char)
    (h : (chars "@**" ++ full_name ++ chars "**").isPrefixOf content = false) :
    extract_query_without_mention full_name content = none := by
  unfold extract_query_without_mention
  rw [if_pos]
  intro hp
  rw [h] at hp
  exact Bool.noConfusion hp

/-- C8: the extractor builds the token `@**name**`; when the content is
exactly the token followed by a remainder it returns the remainder with
leading whitespace trimmed, when the content does not start with the
token (even if it occurs later) it returns the `None` sentinel, and the
two concrete spec examples evaluate as stated. -/
theorem extract_query_without_mention_correct :
    (∀ full_name rest,
      extract_query_without_mention full_name
          ((chars "@**" ++ full_name ++ chars "**") ++ rest) =
        some (rest.dropWhile Char.isWhitespace)) ∧
    (∀ full_name content,
      (chars "@**" ++ full_name ++ chars "**").isPrefixOf content = false →
      extract_query_without_mention full_name content = none) ∧
    extract_query_without_mention (chars "Bot") (chars "@**Bot** hello") =
      some (chars "hello") ∧
    extract_query_without_mention (chars "Bot") (chars "hi @**Bot**") = none :=
  ⟨extract_query_token_hit, extract_query_token_miss, by decide, by decide⟩

/-- Witness for C8's universally quantified parts at concrete inputs. -/
theorem extract_query_without_mention_correct_witness :
    extract_query_without_mention (chars "A") ((chars "@**" ++ chars "A" ++ chars "**") ++ chars "  q") =
      some ((chars "  q").dropWhile Char.isWhitespace) ∧
    extract_query_without_mention (chars "A") (chars "zzz") = none :=
  ⟨extract_query_without_mention_correct.1 (chars "A") (chars "  q"),
   extract_query_without_mention_correct.2.1 (chars "A") (chars "zzz") (by decide)⟩

/-! ### Rate limiter lemmas -/

/-- A call on a window with room left (strictly fewer than
`message_limit` entries) records the timestamp and allows. -/
theorem is_legal_not_full (rl : RateLimit) (now : Int)
    (h : rl.message_list.length + 1 ≤ rl.message_limit) :
    rl.is_legal now = some (true, { rl with message_list := rl.message_list ++ [now] }) := by
  simp only [RateLimit.is_legal]
  rw [if_neg]
  simp only [List.length_append, List.length_cons, List.length_nil]
  omega

/-- A call on an exactly-full window evicts the oldest timestamp and
compares the span of the trimmed window against `interval_limit`. -/
theorem is_legal_full_step (N : Nat) (I : Int) (t1 now : Int) (rest : List Int)
    (h : rest.length + 1 = N) :
    RateLimit.is_legal { message_limit := N, interval_limit := I, message_list := t1 :: rest } now =
      some (decide (now - (rest ++ [now]).headD 0 ≥ I),
        { message_limit := N, interval_limit := I, message_list := rest ++ [now] }) := by
  simp only [RateLimit.is_legal]
  rw [if_pos]
  · have hdrop : ((t1 :: rest) ++ [now]).drop 1 = rest ++ [now] := by simp
    rw [hdrop, List.getLast?_concat]
    cases rest with
    | nil => simp
    | cons a as => simp
  · simp only [List.length_append, List.length_cons, List.length_nil]
    omega

theorem runCalls_fill (ts : List Int) : ∀ (rl : RateLimit),
    rl.message_list.length + ts.length ≤ rl.message_limit →
    runCalls rl ts =
      some (List.replicate ts.length true, { rl with message_list := rl.message_list ++ ts }) := by
  induction ts with
  | nil => intro rl _h; simp [runCalls]
  | cons t ts ih =>
    intro rl h
    have hlen : rl.message_list.length + 1 ≤ rl.message_limit := by
      simp only [List.length_cons] at h; omega
    have hrec := ih { rl with message_list := rl.message_list ++ [t] }
      (by simp only [List.length_append, List.length_cons, List.length_nil]
          simp only [List.length_cons] at h
          omega)
    simp only [runCalls]
    rw [is_legal_not_full rl t hlen]
    simp [hrec, List.replicate_succ]

theorem runCalls_append (xs ys : List Int) : ∀ (rl : RateLimit),
    runCalls rl (xs ++ ys) =
      (runCalls rl xs).bind
        (fun p => (runCalls p.2 ys).map (fun q => (p.1 ++ q.1, q.2))) := by
  induction xs with
  | nil =>
    intro rl
    cases h : runCalls rl ys with
    | none => simp [runCalls, h]
    | some q => simp [runCalls, h]
  | cons x xs ih =>
    intro rl
    cases h1 : rl.is_legal x with
    | none => simp [runCalls, h1]
    | some p =>
      cases h2 : runCalls p.2 xs with
      | none => simp [runCalls, ih, h1, h2]
      | some q =>
        cases h3 : runCalls q.2 ys with
        | none => simp [runCalls, ih, h1, h2, h3]
        | some r => simp [runCalls, ih, h1, h2, h3]

/-- C4 counterexample: with `message_limit = 2`, `interval_limit = 10` and
timestamps `0, 9, 10`, the third call returns `false` although the span
across the last three calls is `10 - 0 ≥ 10` — the code compares the span
of the trimmed window (the last two calls, `10 - 9`), not of the last
`N + 1` calls as the claim states. -/
theorem rate_limit_span_counterexample :
    runCalls { message_limit := 2, interval_limit := 10, message_list := [] } [0, 9, 10] =
      some ([true, true, false],
        { message_limit := 2, interval_limit := 10, message_list := [9, 10] }) ∧
    ¬ (((runCalls { message_limit := 2, interval_limit := 10, message_list := [] }
          [0, 9, 10]).bind (fun p => p.1.getLast?)) = some true ↔ (10 : Int) - 0 ≥ 10) := by
  refine ⟨by decide, by decide⟩

/-- C4 (amended): with `message_limit = N`, `interval_limit = I` and a
fresh limiter, the first `N` calls all return `true`, and the `(N+1)`-th
call returns `true` iff the span of the trimmed window — newest minus
oldest over the last `N` calls, after the oldest of the `N+1` timestamps
is evicted — is at least `I`. -/
theorem rate_limit_first_n_true_trimmed_span (N : Nat) (I : Int)
    (t1 t : Int) (rest : List Int) (hlen : (t1 :: rest).length = N) :
    runCalls { message_limit := N, interval_limit := I, message_list := [] }
        ((t1 :: rest) ++ [t]) =
      some (List.replicate N true ++ [decide (t - (rest ++ [t]).headD 0 ≥ I)],
        { message_limit := N, interval_limit := I, message_list := rest ++ [t] }) := by
  subst hlen
  rw [runCalls_append]
  rw [runCalls_fill (t1 :: rest) _ (by simp)]
  have hstep := is_legal_full_step ((t1 :: rest).length) I t1 t rest (by simp)
  simp only [List.length_cons] at hstep
  simp [runCalls, hstep]

/-- Witness for C4 at `N = 2`, `I = 10`, timestamps `0, 9, 19`: all of
the first two calls allow, and the third allows because the trimmed
span `19 - 9` reaches the interval limit. -/
theorem rate_limit_first_n_true_trimmed_span_witness :
    runCalls { message_limit := 2, interval_limit := 10, message_list := [] } [0, 9, 19] =
      some ([true, true, true],
        { message_limit := 2, interval_limit := 10, message_list := [9, 19] }) := by
  have h := rate_limit_first_n_true_trimmed_span 2 10 0 19 [9] (by decide)
  simpa using h

/-- Stepping the limiter preserves the window-length bound and the
configured limit. -/
theorem is_legal_preserves_bound (rl : RateLimit) (now : Int) (b : Bool) (rl₁ : RateLimit)
    (hinv : rl.message_list.length ≤ rl.message_limit)
    (h : rl.is_legal now = some (b, rl₁)) :
    rl₁.message_list.length ≤ rl₁.message_limit ∧ rl₁.message_limit = rl.message_limit := by
  simp only [RateLimit.is_legal] at h
  split at h
  · split at h
    · rename_i last first hL hH
      simp only [Option.some.injEq, Prod.mk.injEq] at h
      obtain ⟨-, rfl⟩ := h
      refine ⟨?_, rfl⟩
      simp only [List.length_drop, List.length_append, List.length_cons, List.length_nil]
      omega
    · exact absurd h (by simp)
  · rename_i hle
    simp only [Option.some.injEq, Prod.mk.injEq] at h
    obtain ⟨-, rfl⟩ := h
    refine ⟨?_, rfl⟩
    simp only [List.length_append, List.length_cons, List.length_nil] at hle ⊢
    omega

theorem runCalls_window_le (ts : List Int) : ∀ (rl : RateLimit) (bs : List Bool) (rl₂ : RateLimit),
    rl.message_list.length ≤ rl.message_limit →
    runCalls rl ts = some (bs, rl₂) →
    rl₂.message_list.length ≤ rl₂.message_limit ∧ rl₂.message_limit = rl.message_limit := by
  induction ts with
  | nil =>
    intro rl bs rl₂ hinv h
    simp only [runCalls, Option.some.injEq, Prod.mk.injEq] at h
    obtain ⟨-, rfl⟩ := h
    exact ⟨hinv, rfl⟩
  | cons t ts ih =>
    intro rl bs rl₂ hinv h
    simp only [runCalls] at h
    cases h1 : rl.is_legal t with
    | none => rw [h1] at h; cases h
    | some p =>
      obtain ⟨b, rl₁⟩ := p
      rw [h1] at h
      simp only [Option.some_bind] at h
      obtain ⟨hlen, hlim⟩ := is_legal_preserves_bound rl t b rl₁ hinv h1
      cases h2 : runCalls rl₁ ts with
      | none => rw [h2] at h; cases h
      | some q =>
        obtain ⟨bs₁, rl₃⟩ := q
        rw [h2] at h
        simp only [Option.map_some', Option.some.injEq, Prod.mk.injEq] at h
        obtain ⟨-, rfl⟩ := h
        have hres := ih rl₁ bs₁ rl₃ hlen h2
        exact ⟨hres.1, hres.2.trans hlim⟩

/-- C9: starting from a freshly constructed limiter, after any sequence
of `check_and_record` calls the window length never exceeds
`message_limit` (this covers every intermediate call, since the sequence
is arbitrary and every call is the last of its prefix). -/
theorem rate_window_never_exceeds_limit (N : Nat) (I : Int) (ts : List Int)
    (bs : List Bool) (rl₂ : RateLimit)
    (h : runCalls { message_limit := N, interval_limit := I, message_list := [] } ts =
      some (bs, rl₂)) :
    rl₂.message_list.length ≤ N := by
  have hres := runCalls_window_le ts _ bs rl₂ (Nat.zero_le _) h
  have h1 := hres.1
  rw [hres.2] at h1
  exact h1

/-- Witness for C9 on a concrete overfull call sequence. -/
theorem rate_window_never_exceeds_limit_witness :
    ({ message_limit := 2, interval_limit := 10, message_list := [9, 10] } :
      RateLimit).message_list.length ≤ 2 :=
  rate_window_never_exceeds_limit 2 10 [0, 9, 10] [true, true, false] _ (by decide)

/-! ### Dispatch-loop lemmas -/

/-- If the mention flag is set and the extractor matches, the plugin is
invoked with the stripped content and the event is not dropped. -/
theorem handle_message_extract_some (bot : BotIdentity) (message : Message)
    (flags : List String) (storage : Option StateHandler) (remote_ok : Bool)
    (plugin : Message → StateHandler → StateHandler) (c : List Char)
    (hm : flags.contains "mentioned" = true)
    (hx : extract_query_without_mention bot.full_name message.content = some c) :
    (handle_message bot message flags storage remote_ok plugin).invokedMsg =
      some { message with content := c } ∧
    handle_message bot message flags storage remote_ok plugin ≠ .droppedMention := by
  have hm' : "mentioned" ∈ flags := by simpa using hm
  cases storage with
  | none => simp [handle_message, HandleResult.invokedMsg, hm', hx]
  | some st =>
    cases hs : (plugin { message with content := c } st).save remote_ok with
    | none => simp [handle_message, HandleResult.invokedMsg, hm', hx, hs]
    | some r =>
      obtain ⟨st₁, raised, n⟩ := r
      cases raised with
      | false => simp [handle_message, HandleResult.invokedMsg, hm', hx, hs]
      | true => simp [handle_message, HandleResult.invokedMsg, hm', hx, hs]

/-- If the mention flag is set and the extractor does not match, the
event is dropped before dispatch and before the flush line. -/
theorem handle_message_extract_none (bot : BotIdentity) (message : Message)
    (flags : List String) (storage : Option StateHandler) (remote_ok : Bool)
    (plugin : Message → StateHandler → StateHandler)
    (hm : flags.contains "mentioned" = true)
    (hx : extract_query_without_mention bot.full_name message.content = none) :
    handle_message bot message flags storage remote_ok plugin = .droppedMention := by
  have hm' : "mentioned" ∈ flags := by simpa using hm
  simp [handle_message, hm', hx]

/-- Without the mention flag, the plugin is invoked (with unchanged
content) exactly when the message is a PM from another user. -/
theorem handle_message_not_mentioned (bot : BotIdentity) (message : Message)
    (flags : List String) (storage : Option StateHandler) (remote_ok : Bool)
    (plugin : Message → StateHandler → StateHandler)
    (hm : flags.contains "mentioned" = false) :
    (handle_message bot message flags storage remote_ok plugin).invokedMsg =
      (if is_private_message_from_another_user message bot.user_id then some message
       else none) := by
  have hm' : ¬ ("mentioned" ∈ flags) := by simpa using hm
  cases hp : is_private_message_from_another_user message bot.user_id with
  | false =>
    cases storage with
    | none => simp [handle_message, HandleResult.invokedMsg, hm', hp]
    | some st =>
      cases hs : st.save remote_ok with
      | none => simp [handle_message, HandleResult.invokedMsg, hm', hp, hs]
      | some r =>
        obtain ⟨st₁, raised, n⟩ := r
        cases raised with
        | false => simp [handle_message, HandleResult.invokedMsg, hm', hp, hs]
        | true => simp [handle_message, HandleResult.invokedMsg, hm', hp, hs]
  | true =>
    cases storage with
    | none => simp [handle_message, HandleResult.invokedMsg, hm', hp]
    | some st =>
      cases hs : (plugin message st).save remote_ok with
      | none => simp [handle_message, HandleResult.invokedMsg, hm', hp, hs]
      | some r =>
        obtain ⟨st₁, raised, n⟩ := r
        cases raised with
        | false => simp [handle_message, HandleResult.invokedMsg, hm', hp, hs]
        | true => simp [handle_message, HandleResult.invokedMsg, hm', hp, hs]

/-- C3: the spec says the post-event flush is a no-op raising no error
when the handler wrote no state.  The code is wrong on both counts shown
here on a private message from another user with a handler that writes
nothing: with storage enabled and an empty dirty set, the flush still
performs one `update_storage` network call (the `if state_update:` guard
tests the always-truthy outer dict); and for a bot that never declared
`uses_storage`, the unconditional `restricted_client.storage._save()`
line raises `AttributeError` on every processed event. -/
theorem dispatch_flush_not_noop :
    handle_message { user_id := 1, full_name := chars "Bot", email := "bot@x" }
        { type := "private", sender_id := 5,
          display_recipient := .users [{ email := "alice@x" }], subject := "",
          content := chars "hello" }
        [] (some { state_ := [], _modified_entries := [] }) true (fun _ st => st) =
      .finished
        (some { type := "private", sender_id := 5,
                display_recipient := .users [{ email := "alice@x" }], subject := "",
                content := chars "hello" })
        (.flushed { state_ := [], _modified_entries := [] } 1) ∧
    handle_message { user_id := 1, full_name := chars "Bot", email := "bot@x" }
        { type := "private", sender_id := 5,
          display_recipient := .users [{ email := "alice@x" }], subject := "",
          content := chars "hello" }
        [] none true (fun _ st => st) =
      .finished
        (some { type := "private", sender_id := 5,
                display_recipient := .users [{ email := "alice@x" }], subject := "",
                content := chars "hello" })
        .attributeError := by
  refine ⟨by decide, by decide⟩

/-- C5 counterexample: a private message from another user (sender 5,
bot id 1) carrying the `mentioned` flag whose content does not start
with the mention token is dropped, not dispatched — refuting
"dispatched regardless of its mention flags". -/
theorem dispatch_private_mentioned_dropped :
    handle_message { user_id := 1, full_name := chars "Bot", email := "bot@x" }
        { type := "private", sender_id := 5,
          display_recipient := .users [{ email := "alice@x" }], subject := "",
          content := chars "hi @**Bot**" }
        ["mentioned"] (some { state_ := [], _modified_entries := [] }) true
        (fun _ st => st) =
      .droppedMention ∧
    is_private_message_from_another_user
        { type := "private", sender_id := 5,
          display_recipient := .users [{ email := "alice@x" }], subject := "",
          content := chars "hi @**Bot**" } 1 = true := by
  refine ⟨by decide, by decide⟩

/-- C5 (amended): a private message from another user dispatches whenever
the mention flag is absent; any message carrying the mention flag whose
content does not start with the mention token is dropped (this is the
carve-out the counterexample forces — it applies to private messages
too); a stream message without the mention flag never dispatches; a
message carrying the mention flag whose content starts with the token
dispatches with the stripped content. -/
theorem dispatch_filter_correct (bot : BotIdentity) (message : Message)
    (flags : List String) (storage : Option StateHandler) (remote_ok : Bool)
    (plugin : Message → StateHandler → StateHandler) :
    (is_private_message_from_another_user message bot.user_id = true →
      flags.contains "mentioned" = false →
      (handle_message bot message flags storage remote_ok plugin).invokedMsg =
        some message) ∧
    (flags.contains "mentioned" = true →
      extract_query_without_mention bot.full_name message.content = none →
      handle_message bot message flags storage remote_ok plugin = .droppedMention) ∧
    (message.type ≠ "private" → flags.contains "mentioned" = false →
      (handle_message bot message flags storage remote_ok plugin).invokedMsg = none) ∧
    (∀ c, flags.contains "mentioned" = true →
      extract_query_without_mention bot.full_name message.content = some c →
      (handle_message bot message flags storage remote_ok plugin).invokedMsg =
        some { message with content := c }) := by
  refine ⟨?_, ?_, ?_, ?_⟩
  · intro hp hm
    rw [handle_message_not_mentioned bot message flags storage remote_ok plugin hm, hp]
    rfl
  · intro hm hx
    exact handle_message_extract_none bot message flags storage remote_ok plugin hm hx
  · intro ht hm
    have hp : is_private_message_from_another_user message bot.user_id = false := by
      unfold is_private_message_from_another_user
      rw [if_neg ht]
    rw [handle_message_not_mentioned bot message flags storage remote_ok plugin hm, hp]
    rfl
  · intro c hm hx
    exact (handle_message_extract_some bot message flags storage remote_ok plugin c hm hx).1

/-- Witness for C5 applying each conjunct at concrete events. -/
theorem dispatch_filter_correct_witness :
    (handle_message { user_id := 1, full_name := chars "Bot", email := "bot@x" }
        { type := "private", sender_id := 5,
          display_recipient := .users [{ email := "alice@x" }], subject := "",
          content := chars "hey" }
        [] none true (fun _ st => st)).invokedMsg =
      some { type := "private", sender_id := 5,
             display_recipient := .users [{ email := "alice@x" }], subject := "",
             content := chars "hey" } ∧
    handle_message { user_id := 1, full_name := chars "Bot", email := "bot@x" }
        { type := "stream", sender_id := 5, display_recipient := .stream "general",
          subject := "t", content := chars "hi @**Bot**" }
        ["mentioned"] none true (fun _ st => st) = .droppedMention ∧
    (handle_message { user_id := 1, full_name := chars "Bot", email := "bot@x" }
        { type := "stream", sender_id := 5, display_recipient := .stream "general",
          subject := "t", content := chars "@**Bot** hi" }
        [] none true (fun _ st => st)).invokedMsg = none :=
  ⟨(dispatch_filter_correct _ _ _ _ _ _).1 (by decide) rfl,
   (dispatch_filter_correct _ _ _ _ _ _).2.1 rfl (by decide),
   (dispatch_filter_correct _ _ _ _ _ _).2.2.1 (by decide) rfl⟩

/-- C10: content that is exactly the mention token followed only by
whitespace extracts to `some []` — the empty string, distinct from the
`None` sentinel — so a mentioned event with such content is dispatched
to the plugin with empty content rather than dropped. -/
theorem mention_only_message_dispatches_empty (bot : BotIdentity) (message : Message)
    (flags : List String) (storage : Option StateHandler) (remote_ok : Bool)
    (plugin : Message → StateHandler → StateHandler) (ws : List Char)
    (hws : ∀ c ∈ ws, c.isWhitespace = true)
    (hc : message.content = (chars "@**" ++ bot.full_name ++ chars "**") ++ ws)
    (hm : flags.contains "mentioned" = true) :
    extract_query_without_mention bot.full_name message.content = some [] ∧
    (handle_message bot message flags storage remote_ok plugin).invokedMsg =
      some { message with content := [] } ∧
    handle_message bot message flags storage remote_ok plugin ≠ .droppedMention := by
  have hx : extract_query_without_mention bot.full_name message.content = some [] := by
    rw [hc, extract_query_token_hit]
    simp only [Option.some.injEq]
    exact List.dropWhile_eq_nil_iff.mpr hws
  have hd := handle_message_extract_some bot message flags storage remote_ok plugin [] hm hx
  exact ⟨hx, hd.1, hd.2⟩

/-- Witness for C10: a stream message whose content is exactly
`"@**Bot** "` dispatches with empty content. -/
theorem mention_only_message_dispatches_empty_witness :
    extract_query_without_mention (chars "Bot") (chars "@**Bot** ") = some [] ∧
    (handle_message { user_id := 1, full_name := chars "Bot", email := "bot@x" }
        { type := "stream", sender_id := 5, display_recipient := .stream "general",
          subject := "t", content := chars "@**Bot** " }
        ["mentioned"] none true (fun _ st => st)).invokedMsg =
      some { type := "stream", sender_id := 5, display_recipient := .stream "general",
             subject := "t", content := [] } ∧
    handle_message { user_id := 1, full_name := chars "Bot", email := "bot@x" }
        { type := "stream", sender_id := 5, display_recipient := .stream "general",
          subject := "t", content := chars "@**Bot** " }
        ["mentioned"] none true (fun _ st => st) ≠ .droppedMention :=
  mention_only_message_dispatches_empty
    { user_id := 1, full_name := chars "Bot", email := "bot@x" }
    { type := "stream", sender_id := 5, display_recipient := .stream "general",
      subject := "t", content := chars "@**Bot** " }
    ["mentioned"] none true (fun _ st => st) (chars " ") (by decide) (by decide) rfl

/-! ### send_reply -/

/-- The code's "keep participants whose email differs from the bot's,
then project emails" equals the spec's "participant emails minus the
bot's own email". -/
theorem filter_email_comm (l : List UserRef) (e : String) :
    (l.filter (fun x => e ≠ x.email)).map (fun x => x.email) =
      (l.map (fun x => x.email)).filter (fun s => s ≠ e) := by
  induction l with
  | nil => rfl
  | cons x xs ih =>
    by_cases h : x.email = e
    · simpa [List.filter_cons, h] using ih
    · simpa [List.filter_cons, h, Ne.symm h] using ih

/-- C7: on a private original message, `send_reply` sends a private
envelope whose recipients are the conversation's participant emails
minus the facade's own email; on a non-private original it sends a
stream envelope to the same stream and subject; both are expressed as a
call to the rate-limited `send_message`. -/
theorem send_reply_correct (bot : BotIdentity) (rl : RateLimit) (now : Int)
    (message : Message) (response : String) :
    (∀ l, message.type = "private" → message.display_recipient = .users l →
      send_reply bot rl now message response =
        send_message rl now
          (.pm ((l.map UserRef.email).filter (fun e => e ≠ bot.email)) response)) ∧
    (∀ s, message.type ≠ "private" → message.display_recipient = .stream s →
      send_reply bot rl now message response =
        send_message rl now (.stream s message.subject response)) := by
  constructor
  · intro l h1 h2
    unfold send_reply
    rw [if_pos h1, h2]
    simp only [filter_email_comm]
  · intro s h1 h2
    unfold send_reply
    rw [if_neg h1, h2]

/-- Witness for C7: participants `[self, A, B]` yield recipients exactly
`[A, B]`, handed to the rate-limited `send_message`, which forwards the
private envelope (fresh limiter, so the call is allowed). -/
theorem send_reply_correct_witness :
    send_reply { user_id := 1, full_name := chars "Bot", email := "self@x" }
        { message_limit := 20, interval_limit := 5, message_list := [] } 0
        { type := "private", sender_id := 5,
          display_recipient := .users [{ email := "self@x" }, { email := "a@x" },
            { email := "b@x" }],
          subject := "", content := chars "q" } "hi" =
      send_message { message_limit := 20, interval_limit := 5, message_list := [] } 0
        (.pm (([{ email := "self@x" }, { email := "a@x" }, { email := "b@x" }].map
            UserRef.email).filter (fun e => e ≠ "self@x")) "hi") ∧
    ([{ email := "self@x" }, { email := "a@x" }, { email := "b@x" }].map
        UserRef.email).filter (fun e => (e : String) ≠ "self@x") = ["a@x", "b@x"] ∧
    send_message { message_limit := 20, interval_limit := 5, message_list := [] } 0
        (.pm ["a@x", "b@x"] "hi") =
      some (some (.pm ["a@x", "b@x"] "hi"),
        { message_limit := 20, interval_limit := 5, message_list := [0] }) :=
  ⟨(send_reply_correct
      { user_id := 1, full_name := chars "Bot", email := "self@x" }
      { message_limit := 20, interval_limit := 5, message_list := [] } 0
      { type := "private", sender_id := 5,
        display_recipient := .users [{ email := "self@x" }, { email := "a@x" },
          { email := "b@x" }],
        subject := "", content := chars "q" } "hi").1
    [{ email := "self@x" }, { email := "a@x" }, { email := "b@x" }] rfl rfl,
   by decide, by decide⟩
